import Mathlib

/-!
Verification of the dxb-fnz-heatmap backend's core pipeline.

The JavaScript sources (src/index.js and the unnamed variant) are shallowly
embedded: JavaScript numbers are modelled as rationals (the arithmetic in the
verified paths is exact decimal arithmetic), nullable values as `Option`,
fallible external effects (database transactions, upstream fetches) as explicit
outcome parameters, and the WebSocket / HTTP handlers as pure state-passing
functions returning the messages they emit.
-/

namespace DxbHeatmap

/-- Embeds `calculateNoiseLevel(altitude)` from src/index.js lines 52-60
(identical in the unnamed variant, lines 358-366).  The JavaScript checks
`altitude === null || altitude > 10000`, then `altitude < 1000`, and otherwise
returns `1.0 - (altitude - 1000) / 9000`.  A missing altitude is `none`. -/
def calculateNoiseLevel (altitude : Option ℚ) : ℚ :=
  match altitude with
  | none => 1/10
  | some a =>
    if a > 10000 then 1/10
    else if a < 1000 then 1
    else 1 - (a - 1000) / 9000

/-- C1: the noise estimator is a pure total function of altitude: absent or
above 10000 m gives 0.1; below 1000 m gives 1.0; in between it interpolates
`1 - (a - 1000)/9000`; the quoted sample values hold, `estimate 10000 < 1`,
and every output lies in `[0, 1]`. -/
theorem C1_noise_estimator (a : ℚ) (o : Option ℚ) :
    calculateNoiseLevel none = 1/10 ∧
    (10000 < a → calculateNoiseLevel (some a) = 1/10) ∧
    (a < 1000 → calculateNoiseLevel (some a) = 1) ∧
    (1000 ≤ a → a ≤ 10000 → calculateNoiseLevel (some a) = 1 - (a - 1000) / 9000) ∧
    calculateNoiseLevel (some 500) = 1 ∧
    calculateNoiseLevel (some 1000) = 1 ∧
    calculateNoiseLevel (some 5500) = 1/2 ∧
    calculateNoiseLevel (some 10000) < 1 ∧
    calculateNoiseLevel (some 20000) = 1/10 ∧
    0 ≤ calculateNoiseLevel o ∧ calculateNoiseLevel o ≤ 1 := by
  refine ⟨rfl, ?_, ?_, ?_, by norm_num [calculateNoiseLevel], by norm_num [calculateNoiseLevel],
    by norm_num [calculateNoiseLevel], by norm_num [calculateNoiseLevel],
    by norm_num [calculateNoiseLevel], ?_⟩
  · intro h
    simp only [calculateNoiseLevel, if_pos h]
  · intro h
    have h2 : ¬ (10000 : ℚ) < a := by linarith
    simp only [calculateNoiseLevel]
    rw [if_neg (by linarith), if_pos h]
  · intro h1 h2
    simp only [calculateNoiseLevel]
    rw [if_neg (by linarith), if_neg (by linarith)]
  · cases o with
    | none => norm_num [calculateNoiseLevel]
    | some x =>
      simp only [calculateNoiseLevel]
      split_ifs with hx hy
      · norm_num
      · norm_num
      · constructor <;> [linarith; linarith]

/-- Witness for C1 at altitude 5500 (interpolation branch, hypotheses
discharged concretely). -/
theorem C1_noise_estimator_witness :
    calculateNoiseLevel (some 5500) = 1 - ((5500 : ℚ) - 1000) / 9000 :=
  (C1_noise_estimator 5500 none).2.2.2.1 (by norm_num) (by norm_num)

/-!
## Flight ingest: `fetchRealFlightData`

One upstream record is the positional tuple destructured at src/index.js
lines 85-103.  Fields the pipeline never reads (callsign, origin country,
last contact, track, vertical rate, sensors, squawk, spi, position source)
are omitted; nullable numeric fields are `Option ℚ`.
-/

structure AircraftState where
  icao24 : String
  timePosition : Option ℚ
  longitude : Option ℚ
  latitude : Option ℚ
  baroAltitude : Option ℚ
  onGround : Bool
  velocity : Option ℚ
  geoAltitude : Option ℚ
  deriving DecidableEq

/-- JavaScript truthiness of a nullable number: `null`/absent and `0` are
falsy, any other (finite) number is truthy. -/
def truthyNum (o : Option ℚ) : Bool :=
  match o with
  | none => false
  | some x => x != 0

/-- The guard `!on_ground && latitude && longitude` at src/index.js line 105. -/
def includeState (s : AircraftState) : Bool :=
  !s.onGround && truthyNum s.latitude && truthyNum s.longitude

/-- `geo_altitude || baro_altitude` (src/index.js line 106): the geometric
altitude when truthy, otherwise the barometric one. -/
def effectiveAltitude (s : AircraftState) : Option ℚ :=
  match s.geoAltitude with
  | none => s.baroAltitude
  | some g => if g = 0 then s.baroAltitude else some g

/-- `Math.round`: round half toward positive infinity, i.e. `⌊x + 1/2⌋`,
which is Mathlib's `round`. -/
def jsRound (x : ℚ) : ℤ := round x

/-- `Math.round(altitude)` where `altitude` may be `null` (JavaScript coerces
`null` to `0`). -/
def jsRoundOpt (o : Option ℚ) : ℤ :=
  match o with
  | none => 0
  | some x => jsRound x

structure EmissionPoint where
  id : String
  lat : ℚ
  lng : ℚ
  noiseLevel : ℚ
  source : String
  emirate : String
  /-- `new Date(time_position * 1000)`, kept as epoch seconds. -/
  timestamp : Option ℚ
  altitudeMeters : ℤ
  /-- `Math.round(velocity * 3.6)`; `none` models the NaN produced when the
  feed's velocity is `null`. -/
  speedKph : Option ℤ
  deriving DecidableEq

/-- The object pushed at src/index.js lines 109-121 for a state passing the
guard. -/
def mkEmissionPoint (s : AircraftState) : EmissionPoint :=
  { id := s.icao24
    lat := s.latitude.getD 0
    lng := s.longitude.getD 0
    noiseLevel := 60 + calculateNoiseLevel (effectiveAltitude s) * 30
    source := "flight"
    emirate := "UAE"
    timestamp := s.timePosition
    altitudeMeters := jsRoundOpt (effectiveAltitude s)
    speedKph := s.velocity.map (fun v => jsRound (v * (36/10))) }

/-- Contribution of one state to the derived batch: the `forEach` body pushes
exactly one point when the guard passes and none otherwise. -/
def pointsFor (s : AircraftState) : List EmissionPoint :=
  if includeState s then [mkEmissionPoint s] else []

/-- The derived batch of one ingest cycle, as a function of the decoded
`data.states` array (src/index.js lines 83-124). -/
def deriveEmissionPoints (states : List AircraftState) : List EmissionPoint :=
  states.flatMap pointsFor

/-- C2: a state with ground contact, or with a missing latitude or longitude,
produces no EmissionPoint, and removing such a state from the snapshot leaves
the derived batch unchanged. -/
theorem C2_ground_or_missing_excluded (s : AircraftState)
    (h : s.onGround = true ∨ s.latitude = none ∨ s.longitude = none)
    (pre post : List AircraftState) :
    pointsFor s = [] ∧
    deriveEmissionPoints (pre ++ s :: post) = deriveEmissionPoints (pre ++ post) := by
  have hp : pointsFor s = [] := by
    rcases h with h | h | h
    · simp [pointsFor, includeState, h]
    · simp [pointsFor, includeState, truthyNum, h]
    · simp [pointsFor, includeState, truthyNum, h]
  refine ⟨hp, ?_⟩
  simp [deriveEmissionPoints, List.flatMap_append, List.flatMap_cons, hp]

/-- Witness for C2: a concrete grounded state contributes nothing. -/
theorem C2_ground_or_missing_excluded_witness :
    pointsFor ⟨"abc123", some 1700000000, some (55 : ℚ), some 25, some 300, true,
      some 10, some 320⟩ = [] ∧
    deriveEmissionPoints [⟨"abc123", some 1700000000, some 55, some 25, some 300, true,
      some 10, some 320⟩] = deriveEmissionPoints [] :=
  C2_ground_or_missing_excluded _ (Or.inl rfl) [] []

/-- C10: an airborne state whose latitude or longitude is present and exactly
zero is likewise excluded, because the guard tests the coordinates for
truthiness and `0` is falsy. -/
theorem C10_zero_coordinate_excluded (s : AircraftState)
    (_hg : s.onGround = false)
    (h : s.latitude = some 0 ∨ s.longitude = some 0)
    (pre post : List AircraftState) :
    pointsFor s = [] ∧
    deriveEmissionPoints (pre ++ s :: post) = deriveEmissionPoints (pre ++ post) := by
  have hp : pointsFor s = [] := by
    rcases h with h | h
    · simp [pointsFor, includeState, truthyNum, h]
    · simp [pointsFor, includeState, truthyNum, h]
  refine ⟨hp, ?_⟩
  simp [deriveEmissionPoints, List.flatMap_append, List.flatMap_cons, hp]

/-- Witness for C10: a concrete airborne state sitting exactly on the equator
(latitude 0) contributes nothing. -/
theorem C10_zero_coordinate_excluded_witness :
    pointsFor ⟨"def456", some 1700000000, some (55 : ℚ), some 0, some 300, false,
      some 10, some 320⟩ = [] ∧
    deriveEmissionPoints [⟨"def456", some 1700000000, some 55, some 0, some 300, false,
      some 10, some 320⟩] = deriveEmissionPoints [] :=
  C10_zero_coordinate_excluded _ rfl (Or.inl rfl) [] []

/-!
## Broadcast hub and flight cycle

`updateAndBroadcastNoiseData` exists in two variants.  The unnamed variant
(part_000 lines 788-850) keeps `lastKnownFlightData`, broadcasts, and runs a
single multi-row INSERT inside a BEGIN/COMMIT with ROLLBACK on error.  Its
database interaction has three distinct failure modes, kept apart by
`DbOutcome`: `await pool.connect()` (line 817) sits *before* the `try`, so a
connection-acquisition failure rejects the async function with nothing
caught and nothing logged; when a statement inside the `try` throws, the
catch first runs `await client.query('ROLLBACK')` (line 845) — if that
succeeds the failure is logged by `console.error`, but the ROLLBACK can
itself throw (e.g. the connection died), in which case the report is never
reached and the error escapes through the `finally`.  The embedding records
whether the cycle's catch reported the failure (`persistError`) and whether
an exception escaped the cycle (`escaped`).  In every failure mode nothing
was committed, so the durable log is unchanged.

The index.js variant (lines 463-524) has no last-known payload, puts
`pool.connect()` inside its `try`, issues an unconditional
`DELETE FROM noise_sources WHERE source_type = 'flight'` *before* opening a
transaction, then deletes again and inserts row by row inside BEGIN/COMMIT;
its catch only logs, so there a database failure is always reported and
never escapes, but the pre-transaction DELETE has already committed.
-/

/-- The projection sent to the frontend (part_000 lines 798-806 /
index.js lines 473-481). -/
structure FrontendPoint where
  id : String
  lat : ℚ
  lng : ℚ
  noiseLevel : ℚ
  source : String
  emirate : String
  timestamp : Option ℚ
  deriving DecidableEq

def toFrontend (p : EmissionPoint) : FrontendPoint :=
  { id := p.id, lat := p.lat, lng := p.lng, noiseLevel := p.noiseLevel,
    source := p.source, emirate := p.emirate, timestamp := p.timestamp }

/-- A WebSocket envelope: the WELCOME message carries a text, a
NOISE_DATA_UPDATE carries the payload array. -/
inductive WsMessage where
  | welcome (text : String)
  | noiseDataUpdate (data : List FrontendPoint)
  deriving DecidableEq

def welcomeText : String := "Connected to UAE Noise Monitor WebSocket"

/-- The payloads of the data messages in a message list. -/
def dataPayloads (msgs : List WsMessage) : List (List FrontendPoint) :=
  msgs.filterMap (fun m =>
    match m with
    | .welcome _ => none
    | .noiseDataUpdate d => some d)

/-- A row of the `noise_sources` table. -/
structure StoredPoint where
  sourceType : String
  sourceId : String
  lng : ℚ
  lat : ℚ
  altitudeMeters : Option ℤ
  speedKph : Option ℤ
  createdAt : Option ℚ
  deriving DecidableEq

/-- Row built by the part_000 batch INSERT (lines 822-831): the template
interpolates `p.altitude_meters || 'NULL'` and `p.speed_kph || 'NULL'`, so a
zero (or NaN) value becomes SQL NULL. -/
def toStored (p : EmissionPoint) : StoredPoint :=
  { sourceType := "flight"
    sourceId := p.id
    lng := p.lng
    lat := p.lat
    altitudeMeters := if p.altitudeMeters = 0 then none else some p.altitudeMeters
    speedKph := match p.speedKph with
      | none => none
      | some v => if v = 0 then none else some v
    createdAt := p.timestamp }

/-- Row built by the index.js per-row parameterized INSERT (lines 509-513). -/
def toStoredIndex (p : EmissionPoint) : StoredPoint :=
  { sourceType := "flight", sourceId := p.id, lng := p.lng, lat := p.lat,
    altitudeMeters := some p.altitudeMeters, speedKph := p.speedKph,
    createdAt := p.timestamp }

/-- Mutable state touched by the part_000 flight cycle: the module-level
`lastKnownFlightData` array and the durable `noise_sources` log. -/
structure CycleState where
  lastKnown : List FrontendPoint
  log : List StoredPoint
  deriving DecidableEq

/-- Outcome of the part_000 cycle's database interaction (lines 817-849).
`connectFailed`: `pool.connect()` rejected before the `try`.
`txFailedRollbackOk`: a statement inside the `try` threw and the catch's
ROLLBACK succeeded, so `console.error` ran.  `txFailedRollbackThrew`: the
ROLLBACK inside the catch threw as well, skipping the report. -/
inductive DbOutcome where
  | ok
  | connectFailed
  | txFailedRollbackOk
  | txFailedRollbackThrew
  deriving DecidableEq

structure CycleOutput where
  state : CycleState
  broadcasts : List WsMessage
  /-- The cycle's catch reported the failure via `console.error`. -/
  persistError : Bool
  /-- An exception escaped `updateAndBroadcastNoiseData` (an unhandled
  rejection at the `setInterval` call site). -/
  escaped : Bool
  deriving DecidableEq

/-- part_000 `updateAndBroadcastNoiseData` (lines 788-850) as a state
transition on the fetched batch: empty batch returns early; otherwise the
frontend payload replaces `lastKnownFlightData` and is broadcast (both
precede `pool.connect()`), then the batch is appended to the log in one
transaction.  No failure mode commits anything, so the log is unchanged on
failure; the failure is logged without escaping only in the
`txFailedRollbackOk` mode — a connect failure is never caught, and a
throwing ROLLBACK escapes before the `console.error`. -/
def updateAndBroadcastNoiseData (fetched : List EmissionPoint) (db : DbOutcome)
    (st : CycleState) : CycleOutput :=
  if fetched.length = 0 then ⟨st, [], false, false⟩
  else
    let payload := fetched.map toFrontend
    let msgs := [WsMessage.noiseDataUpdate payload]
    match db with
    | DbOutcome.ok =>
      ⟨⟨payload, st.log ++ fetched.map toStored⟩, msgs, false, false⟩
    | DbOutcome.connectFailed =>
      ⟨⟨payload, st.log⟩, msgs, false, true⟩
    | DbOutcome.txFailedRollbackOk =>
      ⟨⟨payload, st.log⟩, msgs, true, false⟩
    | DbOutcome.txFailedRollbackThrew =>
      ⟨⟨payload, st.log⟩, msgs, false, true⟩

structure IndexCycleOutput where
  log : List StoredPoint
  broadcasts : List WsMessage
  persistError : Bool
  deriving DecidableEq

/-- Rows surviving the `DELETE FROM noise_sources WHERE source_type =
'flight'` statement. -/
def deleteFlightRows (log : List StoredPoint) : List StoredPoint :=
  log.filter (fun r => r.sourceType != "flight")

/-- index.js `updateAndBroadcastNoiseData` (lines 463-524): empty batch
returns early; otherwise broadcast, then an unconditional flight-row DELETE
committed outside any transaction, then BEGIN, a second DELETE, the per-row
INSERTs and COMMIT.  When the transaction fails it is never committed (and
the catch only logs), so its delete and inserts are not retained — but the
first DELETE already is. -/
def updateAndBroadcastNoiseDataIndex (fetched : List EmissionPoint)
    (txFails : Bool) (log : List StoredPoint) : IndexCycleOutput :=
  if fetched.length = 0 then ⟨log, [], false⟩
  else
    let payload := fetched.map toFrontend
    let afterFirstDelete := deleteFlightRows log
    if txFails then
      ⟨afterFirstDelete, [WsMessage.noiseDataUpdate payload], true⟩
    else
      ⟨deleteFlightRows afterFirstDelete ++ fetched.map toStoredIndex,
        [WsMessage.noiseDataUpdate payload], false⟩

/-- part_000 connection handler (lines 876-898): WELCOME, then the last-known
payload when one exists. -/
def onConnection (lastKnownFlightData : List FrontendPoint) : List WsMessage :=
  WsMessage.welcome welcomeText ::
    (if lastKnownFlightData.length > 0
      then [WsMessage.noiseDataUpdate lastKnownFlightData] else [])

/-- index.js connection handler (lines 538-553): only the WELCOME message is
sent; there is no last-known payload and no synchronization message. -/
def onConnectionIndex : List WsMessage :=
  [WsMessage.welcome welcomeText]

/-- `cleanupOldData` (part_000 lines 852-866): delete rows older than 7 days,
returning the surviving log and the removed row count.  A row with NULL
`created_at` does not satisfy the `<` comparison and survives. -/
def cleanupOldData (now : ℚ) (log : List StoredPoint) : List StoredPoint × ℕ :=
  let kept := log.filter (fun r =>
    match r.createdAt with
    | none => true
    | some t => decide (¬ t < now - 7 * 24 * 3600))
  (kept, log.length - kept.length)

/-- A concrete airborne emission point used by the closed counterexamples. -/
def samplePoint : EmissionPoint :=
  { id := "ab12cd", lat := 25, lng := 55, noiseLevel := 75, source := "flight",
    emirate := "UAE", timestamp := some 1700000000, altitudeMeters := 5500,
    speedKph := some 800 }

/-- A previously persisted flight row used by the closed counterexamples. -/
def priorFlightRow : StoredPoint :=
  { sourceType := "flight", sourceId := "old001", lng := 54, lat := 24,
    altitudeMeters := some 3000, speedKph := some 700,
    createdAt := some 1699990000 }

/-- C3 fails as stated: in the index.js variant, after a successful cycle
that broadcast a nonempty batch, a connecting subscriber receives only the
welcome message and no synchronization data message at all. -/
theorem C3_counterexample :
    (updateAndBroadcastNoiseDataIndex [samplePoint] false []).broadcasts
      = [WsMessage.noiseDataUpdate [toFrontend samplePoint]] ∧
    [toFrontend samplePoint] ≠ [] ∧
    dataPayloads onConnectionIndex = [] := by
  refine ⟨rfl, by simp, rfl⟩

/-- C3 amended: in the variant that maintains `lastKnownFlightData`
(part_000), every subscriber connecting after a successful flight cycle
receives the welcome message immediately followed by a synchronization
message equal to the most recently published batch. -/
theorem C3_sync_after_cycle (fetched : List EmissionPoint) (db : DbOutcome)
    (st : CycleState) (h : fetched ≠ []) :
    (updateAndBroadcastNoiseData fetched db st).broadcasts
      = [WsMessage.noiseDataUpdate (fetched.map toFrontend)] ∧
    onConnection (updateAndBroadcastNoiseData fetched db st).state.lastKnown
      = [WsMessage.welcome welcomeText,
         WsMessage.noiseDataUpdate (fetched.map toFrontend)] := by
  have hl : ¬ fetched.length = 0 := fun hc => h (List.length_eq_zero.mp hc)
  have hp : 0 < (fetched.map toFrontend).length := by
    simpa using Nat.pos_of_ne_zero hl
  cases db <;>
    simp [updateAndBroadcastNoiseData, onConnection, h, hp]

/-- Witness for C3 (amended) at a one-point batch. -/
theorem C3_sync_after_cycle_witness :
    onConnection (updateAndBroadcastNoiseData [samplePoint] DbOutcome.ok
        ⟨[], []⟩).state.lastKnown
      = [WsMessage.welcome welcomeText,
         WsMessage.noiseDataUpdate ([samplePoint].map toFrontend)] :=
  (C3_sync_after_cycle [samplePoint] DbOutcome.ok ⟨[], []⟩ (by simp)).2

/-- C4: a cycle whose derived batch is empty sends no data message, performs
no persistence, reports no persistence error, and leaves the state (the
last-known payload and the log) exactly as it was — in both variants. -/
theorem C4_empty_batch_skips (dbA : DbOutcome) (txB : Bool) (st : CycleState)
    (log : List StoredPoint) :
    updateAndBroadcastNoiseData [] dbA st = ⟨st, [], false, false⟩ ∧
    updateAndBroadcastNoiseDataIndex [] txB log = ⟨log, [], false⟩ :=
  ⟨rfl, rfl⟩

/-- C5 fails as stated: in the index.js variant the unconditional
pre-transaction DELETE has already committed when the batch insert fails, so
the durable log is *not* unchanged by the failed append — the previously
persisted flight row is gone. -/
theorem C5_counterexample :
    priorFlightRow ∈ [priorFlightRow] ∧
    (updateAndBroadcastNoiseDataIndex [samplePoint] true [priorFlightRow]).log
      = [] := by
  refine ⟨by simp, by decide⟩

/-- C5 amended: when persisting the batch fails, no point of the batch is
retained.  In the part_000 variant the durable log is unchanged by every
failure mode (nothing was committed), but the failure is reported with no
exception escaping the cycle only when a statement failed inside the `try`
and the catch's ROLLBACK succeeded: a `pool.connect()` failure (line 817,
before the `try`) and a ROLLBACK that itself throws (line 845) both escape
the cycle unreported.  In the index.js variant the failure is always caught
and logged, but the pre-transaction DELETE has already committed, so the
resulting log is the prior log minus its flight rows. -/
theorem C5_failed_append (fetched : List EmissionPoint) (st : CycleState)
    (log : List StoredPoint) (db : DbOutcome) (h : fetched ≠ [])
    (hdb : db ≠ DbOutcome.ok) :
    (updateAndBroadcastNoiseData fetched db st).state.log = st.log ∧
    ((updateAndBroadcastNoiseData fetched db st).persistError = true ∧
        (updateAndBroadcastNoiseData fetched db st).escaped = false
      ↔ db = DbOutcome.txFailedRollbackOk) ∧
    (updateAndBroadcastNoiseDataIndex fetched true log).persistError = true ∧
    (updateAndBroadcastNoiseDataIndex fetched true log).log
      = deleteFlightRows log ∧
    ∀ p ∈ fetched,
      toStoredIndex p ∉ (updateAndBroadcastNoiseDataIndex fetched true log).log := by
  have hidx : (updateAndBroadcastNoiseDataIndex fetched true log).log
      = deleteFlightRows log := by
    simp [updateAndBroadcastNoiseDataIndex, h]
  have hbatch : ∀ p ∈ fetched,
      toStoredIndex p ∉ (updateAndBroadcastNoiseDataIndex fetched true log).log := by
    intro p _hp hmem
    rw [hidx] at hmem
    have := List.of_mem_filter hmem
    simp [toStoredIndex] at this
  have hrep : (updateAndBroadcastNoiseDataIndex fetched true log).persistError
      = true := by
    simp [updateAndBroadcastNoiseDataIndex, h]
  cases db with
  | ok => exact absurd rfl hdb
  | connectFailed =>
    exact ⟨by simp [updateAndBroadcastNoiseData, h],
      by simp [updateAndBroadcastNoiseData, h], hrep, hidx, hbatch⟩
  | txFailedRollbackOk =>
    exact ⟨by simp [updateAndBroadcastNoiseData, h],
      by simp [updateAndBroadcastNoiseData, h], hrep, hidx, hbatch⟩
  | txFailedRollbackThrew =>
    exact ⟨by simp [updateAndBroadcastNoiseData, h],
      by simp [updateAndBroadcastNoiseData, h], hrep, hidx, hbatch⟩

/-- Witness for C5 (amended) at a one-point batch over a one-row log, in the
reported-failure mode. -/
theorem C5_failed_append_witness :
    (updateAndBroadcastNoiseData [samplePoint] DbOutcome.txFailedRollbackOk
        ⟨[], [priorFlightRow]⟩).state.log = [priorFlightRow] ∧
    toStoredIndex samplePoint ∉
      (updateAndBroadcastNoiseDataIndex [samplePoint] true [priorFlightRow]).log :=
  ⟨(C5_failed_append [samplePoint] ⟨[], [priorFlightRow]⟩ [priorFlightRow]
      DbOutcome.txFailedRollbackOk (by simp) (by simp)).1,
    (C5_failed_append [samplePoint] ⟨[], [priorFlightRow]⟩ [priorFlightRow]
      DbOutcome.txFailedRollbackOk (by simp) (by simp)).2.2.2.2 samplePoint (by simp)⟩

/-- C6 fails as stated: the index.js variant is not append-only — a
successful persist deletes the previously persisted flight row even though no
prune ran. -/
theorem C6_counterexample :
    priorFlightRow ∈ [priorFlightRow] ∧
    priorFlightRow ∉
      (updateAndBroadcastNoiseDataIndex [samplePoint] false [priorFlightRow]).log := by
  refine ⟨by simp, by decide⟩

/-- C6 amended: the part_000 variant is append-only — a successful persist
appends exactly the batch's rows after the existing log — and its prune keeps
a subset of the log, removing a row only when its timestamp is older than the
7-day horizon.  The index.js variant instead deletes and replaces all flight
rows each cycle. -/
theorem C6_append_only (fetched : List EmissionPoint) (st : CycleState)
    (now : ℚ) (log : List StoredPoint) :
    (updateAndBroadcastNoiseData fetched DbOutcome.ok st).state.log
      = st.log ++ fetched.map toStored ∧
    (∀ r ∈ (cleanupOldData now log).1, r ∈ log) ∧
    (∀ r ∈ log, r ∉ (cleanupOldData now log).1 →
      ∃ t, r.createdAt = some t ∧ t < now - 7 * 24 * 3600) := by
  refine ⟨?_, ?_, ?_⟩
  · by_cases he : fetched = []
    · subst he
      simp [updateAndBroadcastNoiseData]
    · simp [updateAndBroadcastNoiseData, he]
  · intro r hr
    exact List.mem_of_mem_filter hr
  · intro r hr hnot
    rcases hc : r.createdAt with _ | t
    · exact absurd (List.mem_filter.mpr ⟨hr, by simp [hc]⟩) hnot
    · refine ⟨t, rfl, ?_⟩
      by_contra hlt
      exact hnot (List.mem_filter.mpr ⟨hr, by simp [hc, hlt]⟩)

/-- Witness for C6 (amended): the row removed by a concrete prune is indeed
older than the 7-day horizon. -/
theorem C6_append_only_witness :
    ∃ t, priorFlightRow.createdAt = some t ∧ t < (1700600000 : ℚ) - 7 * 24 * 3600 :=
  (C6_append_only [] ⟨[], []⟩ 1700600000 [priorFlightRow]).2.2 priorFlightRow
    (by simp) (by norm_num [cleanupOldData, priorFlightRow])

/-!
## Windowed density aggregation: GET /api/heatmap/history

Embeds the SQL query at part_000 lines 248-335 over the `noise_sources` rows:
restrict to `source_type = 'flight'`, `created_at` within the last 24 hours
and position inside the UAE bounds; snap to a 0.005-degree grid
(`ST_SnapToGrid` moves each coordinate to the nearest grid node); count per
cell; keep cells with at least 2 observations; density `LEAST(count/50, 1)`;
noise level `(40 + density*50)::int`; order by descending count.
-/

def gridSizeDegrees : ℚ := 5 / 1000

structure HeatBounds where
  minLat : ℚ
  minLng : ℚ
  maxLat : ℚ
  maxLng : ℚ

/-- The `UAE_BOUNDS` constant of the endpoint (part_000 lines 254-259). -/
def UAE_BOUNDS : HeatBounds :=
  { minLat := 22.6, minLng := 51.55, maxLat := 26.3, maxLng := 56.38 }

/-- `ST_SnapToGrid` with origin 0: the coordinate moves to the nearest
multiple of the grid size. -/
def snapToGrid (size x : ℚ) : ℚ := (round (x / size) : ℤ) * size

/-- The WHERE clause of the `filtered_points` CTE.  A NULL `created_at` fails
the window comparison. -/
def heatFilter (now : ℚ) (r : StoredPoint) : Bool :=
  (r.sourceType == "flight") &&
  (match r.createdAt with
    | none => false
    | some t => decide (now - 24 * 3600 < t)) &&
  decide (UAE_BOUNDS.minLng ≤ r.lng) && decide (r.lng ≤ UAE_BOUNDS.maxLng) &&
  decide (UAE_BOUNDS.minLat ≤ r.lat) && decide (r.lat ≤ UAE_BOUNDS.maxLat)

def cellOf (r : StoredPoint) : ℚ × ℚ :=
  (snapToGrid gridSizeDegrees r.lng, snapToGrid gridSizeDegrees r.lat)

structure DensityCell where
  lat : ℚ
  lng : ℚ
  flightCount : ℕ
  density : ℚ
  noiseLevel : ℤ
  deriving DecidableEq

/-- One output row for a grid cell holding `n` filtered points. -/
def mkDensityCell (c : ℚ × ℚ) (n : ℕ) : DensityCell :=
  { lat := c.2, lng := c.1, flightCount := n,
    density := min ((n : ℚ) / 50) 1,
    noiseLevel := round ((40 : ℚ) + min ((n : ℚ) / 50) 1 * 50) }

/-- `ORDER BY flight_count DESC` as a relation on output rows. -/
def countDesc (a b : DensityCell) : Prop := b.flightCount ≤ a.flightCount

instance : DecidableRel countDesc := fun _ _ => Nat.decLe _ _

instance : IsTotal DensityCell countDesc := ⟨fun a b => le_total b.flightCount a.flightCount⟩

instance : IsTrans DensityCell countDesc := ⟨fun _ _ _ hab hbc => le_trans hbc hab⟩

/-- The whole aggregation query as a function of the stored rows. -/
def aggregateHistory (now : ℚ) (pts : List StoredPoint) : List DensityCell :=
  let filtered := pts.filter (heatFilter now)
  let cells := (filtered.map cellOf).dedup
  let rows := cells.map (fun c =>
    mkDensityCell c ((filtered.filter (fun r => decide (cellOf r = c))).length))
  List.insertionSort countDesc (rows.filter (fun dc => decide (2 ≤ dc.flightCount)))

/-- `40 + min (n/50) 1 * 50` is the integer `40 + min n 50`. -/
theorem noiseLevelCast (n : ℕ) :
    (40 : ℚ) + min ((n : ℚ) / 50) 1 * 50 = ((40 + (min n 50 : ℕ) : ℤ) : ℚ) := by
  rw [min_mul_of_nonneg _ _ (by norm_num : (0:ℚ) ≤ 50),
    div_mul_cancel₀ _ (by norm_num : (50:ℚ) ≠ 0)]
  push_cast
  norm_num

/-- A stored flight row at a given position, observed at epoch second
1700000000, used by the concrete aggregation example. -/
def heatRow (lng lat : ℚ) : StoredPoint :=
  { sourceType := "flight", sourceId := "x", lng := lng, lat := lat,
    altitudeMeters := some 5000, speedKph := some 800,
    createdAt := some 1700000000 }

/-- Three rows inside one 0.005-degree cell plus one isolated row. -/
def exampleHeatLog : List StoredPoint :=
  [heatRow 55.27 25.2, heatRow 55.271 25.2, heatRow 55.269 25.2, heatRow 53 24]

def exampleDensityCell : DensityCell :=
  { lat := 25.2, lng := 55.27, flightCount := 3, density := 3/50,
    noiseLevel := 43 }

/-- Evaluation of the aggregation on the concrete example: the three
clustered points form one cell with count 3, density 0.06 and noise level 43,
and the single-point cell is dropped. -/
theorem aggregateHistory_example :
    aggregateHistory 1700000000 exampleHeatLog = [exampleDensityCell] := by
  have hf : ∀ lng lat : ℚ, UAE_BOUNDS.minLng ≤ lng → lng ≤ UAE_BOUNDS.maxLng →
      UAE_BOUNDS.minLat ≤ lat → lat ≤ UAE_BOUNDS.maxLat →
      heatFilter 1700000000 (heatRow lng lat) = true := by
    intro lng lat h1 h2 h3 h4
    simp [heatFilter, heatRow, h1, h2, h3, h4]
  have hf1 := hf 55.27 25.2 (by norm_num [UAE_BOUNDS]) (by norm_num [UAE_BOUNDS])
    (by norm_num [UAE_BOUNDS]) (by norm_num [UAE_BOUNDS])
  have hf2 := hf 55.271 25.2 (by norm_num [UAE_BOUNDS]) (by norm_num [UAE_BOUNDS])
    (by norm_num [UAE_BOUNDS]) (by norm_num [UAE_BOUNDS])
  have hf3 := hf 55.269 25.2 (by norm_num [UAE_BOUNDS]) (by norm_num [UAE_BOUNDS])
    (by norm_num [UAE_BOUNDS]) (by norm_num [UAE_BOUNDS])
  have hf4 := hf 53 24 (by norm_num [UAE_BOUNDS]) (by norm_num [UAE_BOUNDS])
    (by norm_num [UAE_BOUNDS]) (by norm_num [UAE_BOUNDS])
  have hfil : exampleHeatLog.filter (heatFilter 1700000000) = exampleHeatLog := by
    simp [exampleHeatLog, List.filter_cons, hf1, hf2, hf3, hf4]
  have h1 : cellOf (heatRow 55.27 25.2) = ((55.27 : ℚ), (25.2 : ℚ)) := by
    norm_num [cellOf, heatRow, snapToGrid, gridSizeDegrees, round_eq]
  have h2 : cellOf (heatRow 55.271 25.2) = ((55.27 : ℚ), (25.2 : ℚ)) := by
    norm_num [cellOf, heatRow, snapToGrid, gridSizeDegrees, round_eq]
  have h3 : cellOf (heatRow 55.269 25.2) = ((55.27 : ℚ), (25.2 : ℚ)) := by
    norm_num [cellOf, heatRow, snapToGrid, gridSizeDegrees, round_eq]
  have h4 : cellOf (heatRow 53 24) = ((53 : ℚ), (24 : ℚ)) := by
    norm_num [cellOf, heatRow, snapToGrid, gridSizeDegrees, round_eq]
  have hAB : ¬ (((53 : ℚ), (24 : ℚ)) = ((55.27 : ℚ), (25.2 : ℚ))) := by norm_num
  have hBA : ¬ (((55.27 : ℚ), (25.2 : ℚ)) = ((53 : ℚ), (24 : ℚ))) := by norm_num
  simp only [aggregateHistory, hfil]
  rw [show exampleHeatLog.map cellOf
      = [((55.27 : ℚ), (25.2 : ℚ)), (55.27, 25.2), (55.27, 25.2), (53, 24)] by
    simp [exampleHeatLog, h1, h2, h3, h4]]
  rw [show [((55.27 : ℚ), (25.2 : ℚ)), (55.27, 25.2), (55.27, 25.2), (53, 24)].dedup
      = [(55.27, 25.2), (53, 24)] by
    norm_num [List.dedup_cons_of_mem, List.dedup_cons_of_not_mem]]
  simp only [List.map_cons, List.map_nil]
  rw [show exampleHeatLog.filter
        (fun r => decide (cellOf r = ((55.27 : ℚ), (25.2 : ℚ))))
      = [heatRow 55.27 25.2, heatRow 55.271 25.2, heatRow 55.269 25.2] by
    simp [exampleHeatLog, List.filter_cons, h1, h2, h3, h4, hAB]]
  rw [show exampleHeatLog.filter
        (fun r => decide (cellOf r = ((53 : ℚ), (24 : ℚ))))
      = [heatRow 53 24] by
    simp [exampleHeatLog, List.filter_cons, h1, h2, h3, h4, hBA]]
  simp only [List.length_cons, List.length_nil]
  rw [show (mkDensityCell ((55.27 : ℚ), (25.2 : ℚ)) 3) = exampleDensityCell by
    norm_num [mkDensityCell, exampleDensityCell, round_eq]]
  simp [List.filter_cons, exampleDensityCell, mkDensityCell,
    List.insertionSort, List.orderedInsert]

/-- C7: every cell returned by the aggregation has at least 2 observations,
density `min(count/50, 1)` and noise level `40 + density*50`; the output is
ordered by descending raw count; and on the concrete example of 3 points in
one cell plus an isolated point, the result is exactly the one cell with
count 3, density 0.06 and noise level 43. -/
theorem C7_aggregate_history (now : ℚ) (pts : List StoredPoint)
    (c : DensityCell) (hc : c ∈ aggregateHistory now pts) :
    2 ≤ c.flightCount ∧
    c.density = min ((c.flightCount : ℚ) / 50) 1 ∧
    (c.noiseLevel : ℚ) = 40 + c.density * 50 ∧
    List.Sorted countDesc (aggregateHistory now pts) ∧
    aggregateHistory 1700000000 exampleHeatLog = [exampleDensityCell] := by
  rw [aggregateHistory, List.mem_insertionSort] at hc
  obtain ⟨hc1, hc2⟩ := List.mem_filter.mp hc
  obtain ⟨cell, _hcell, hceq⟩ := List.mem_map.mp hc1
  have hcount : 2 ≤ c.flightCount := of_decide_eq_true hc2
  refine ⟨hcount, ?_, ?_, List.sorted_insertionSort countDesc _,
    aggregateHistory_example⟩
  · rw [← hceq]
    rfl
  · rw [← hceq]
    show ((round ((40 : ℚ) + min (_ / 50) 1 * 50) : ℤ) : ℚ) = _
    rw [noiseLevelCast, round_intCast]
    exact (noiseLevelCast _).symm

/-- Witness for C7 at the concrete example cell. -/
theorem C7_aggregate_history_witness :
    2 ≤ exampleDensityCell.flightCount ∧
    (exampleDensityCell.noiseLevel : ℚ) = 40 + exampleDensityCell.density * 50 :=
  have hmem : exampleDensityCell ∈ aggregateHistory 1700000000 exampleHeatLog := by
    rw [aggregateHistory_example]
    exact List.mem_singleton.mpr rfl
  ⟨(C7_aggregate_history 1700000000 exampleHeatLog exampleDensityCell hmem).1,
    (C7_aggregate_history 1700000000 exampleHeatLog exampleDensityCell hmem).2.2.1⟩

/-!
## Traffic overlay: `fetchGoogleTrafficData` and the `/api/traffic/roads` cache

Embeds part_000 lines 31-246.  Polyline decoding is treated as an input (the
decoded point list per route); the per-route upstream response is an outcome
parameter: a failure (non-OK status or thrown error, skipped with `continue`),
or a success carrying the decoded points and the two leg durations.
-/

structure TrafficRoute where
  startLat : ℚ
  startLng : ℚ
  endLat : ℚ
  endLng : ℚ
  name : String
  weight : ℚ
  emirate : String
  deriving DecidableEq

/-- The `UAE_MAJOR_ROUTES` table (part_000 lines 36-63). -/
def UAE_MAJOR_ROUTES : List TrafficRoute :=
  [⟨25.076, 55.132, 25.270, 55.330, "Sheikh Zayed Road - Dubai", 1.0, "Dubai"⟩,
   ⟨25.050, 55.200, 25.320, 55.480, "Emirates Road - Dubai", 0.9, "Dubai"⟩,
   ⟨25.060, 55.170, 25.180, 55.300, "Al Khail Road", 0.85, "Dubai"⟩,
   ⟨25.080, 55.140, 25.220, 55.260, "Jumeirah Beach Road", 0.75, "Dubai"⟩,
   ⟨25.252, 55.365, 25.150, 55.600, "Dubai-Al Ain Road", 0.8, "Dubai"⟩,
   ⟨25.076, 55.132, 24.466, 54.366, "Dubai-Abu Dhabi Highway", 0.95, "Multiple"⟩,
   ⟨24.470, 54.320, 24.465, 54.395, "Abu Dhabi Corniche", 0.85, "Abu Dhabi"⟩,
   ⟨24.466, 54.366, 24.433, 54.651, "Abu Dhabi Airport Road", 0.8, "Abu Dhabi"⟩,
   ⟨24.466, 54.366, 24.350, 54.800, "Abu Dhabi-Al Ain Road", 0.75, "Abu Dhabi"⟩,
   ⟨25.270, 55.330, 25.340, 55.390, "Dubai-Sharjah Border", 0.95, "Sharjah"⟩,
   ⟨25.320, 55.440, 25.420, 55.540, "Emirates Road - Sharjah", 0.85, "Sharjah"⟩,
   ⟨25.340, 55.390, 25.405, 55.480, "Sharjah-Ajman Road", 0.8, "Sharjah"⟩,
   ⟨25.405, 55.445, 25.564, 55.553, "Ajman-UAQ Road", 0.7, "Ajman"⟩,
   ⟨25.564, 55.553, 25.790, 55.940, "UAQ-RAK Road", 0.7, "Ras Al Khaimah"⟩,
   ⟨25.270, 55.330, 25.120, 56.330, "Dubai-Fujairah Road", 0.75, "Fujairah"⟩]

/-- A traffic heatmap point.  `trafficRatioValue` and `delayMinutes` carry
the numeric values the JavaScript formats with `toFixed` before storing. -/
structure TrafficSample where
  lat : ℚ
  lng : ℚ
  intensity : ℚ
  route : String
  emirate : String
  trafficRatioValue : ℚ
  delayMinutes : ℚ
  deriving DecidableEq

/-- Lines 101-109: `min((ratio-1)*2, 1)`, floored at 0.3, scaled by the
route weight. -/
def finalIntensity (weight normalDuration trafficDuration : ℚ) : ℚ :=
  max (3/10) (min ((trafficDuration / normalDuration - 1) * 2) 1) * weight

/-- Lines 111-130: points sampled along the decoded polyline (indices that
are multiples of `max 1 (length / 100)`), each carrying the route's final
intensity. -/
def routeSamples (route : TrafficRoute) (decoded : List (ℚ × ℚ))
    (normalDuration trafficDuration : ℚ) : List TrafficSample :=
  let rate := max 1 (decoded.length / 100)
  (decoded.enum.filter (fun ip => decide (ip.1 % rate = 0))).map (fun ip =>
    { lat := ip.2.1, lng := ip.2.2,
      intensity := finalIntensity route.weight normalDuration trafficDuration,
      route := route.name, emirate := route.emirate,
      trafficRatioValue := trafficDuration / normalDuration,
      delayMinutes := (trafficDuration - normalDuration) / 60 })

/-- Every configured route weight lies in `[0.7, 1]`. -/
theorem routeWeight_bounds (r : TrafficRoute) (hr : r ∈ UAE_MAJOR_ROUTES) :
    7/10 ≤ r.weight ∧ r.weight ≤ 1 := by
  simp only [UAE_MAJOR_ROUTES] at hr
  fin_cases hr <;> norm_num

/-- The Ajman-UAQ route (weight 0.7). -/
def ajmanUaqRoute : TrafficRoute :=
  ⟨25.405, 55.445, 25.564, 55.553, "Ajman-UAQ Road", 0.7, "Ajman"⟩

/-- The sample produced for the Ajman-UAQ route from a one-point polyline
when traffic duration equals normal duration. -/
def ajmanSample : TrafficSample :=
  { lat := 25.5, lng := 55.5, intensity := 21/100, route := "Ajman-UAQ Road",
    emirate := "Ajman", trafficRatioValue := 1, delayMinutes := 0 }

theorem routeSamplesAjman_eq :
    routeSamples ajmanUaqRoute [((25.5 : ℚ), (55.5 : ℚ))] 600 600 = [ajmanSample] := by
  norm_num [routeSamples, finalIntensity, ajmanUaqRoute, ajmanSample,
    List.enum, List.enumFrom, min_def, max_def]

/-- C8 fails as stated: the route with weight 0.7, refreshed with no delay,
produces samples with intensity 0.21, outside the claimed range [0.3, 1.0] —
the 0.3 floor is applied before the weight scaling, not after. -/
theorem C8_counterexample :
    ajmanUaqRoute ∈ UAE_MAJOR_ROUTES ∧
    (routeSamples ajmanUaqRoute [((25.5 : ℚ), (55.5 : ℚ))] 600 600).map
      (fun s => s.intensity) = [21/100] ∧
    ¬ ((3:ℚ)/10 ≤ 21/100) := by
  refine ⟨?_, ?_, by norm_num⟩
  · simp only [UAE_MAJOR_ROUTES, ajmanUaqRoute]
    norm_num
  · rw [routeSamplesAjman_eq]
    norm_num [ajmanSample]

/-- C8 amended: every TrafficSample's intensity equals
`min((traffic/normal - 1)*2, 1)` floored at 0.3 and then scaled by the
route's weight; the clamped pre-weight value lies in [0.3, 1], so the final
intensity lies in `[0.3*weight, weight]`, which for the configured weights
(all in [0.7, 1]) is contained in [0.21, 1] — not in [0.3, 1]. -/
theorem C8_intensity (route : TrafficRoute) (hr : route ∈ UAE_MAJOR_ROUTES)
    (decoded : List (ℚ × ℚ)) (n t : ℚ) (s : TrafficSample)
    (hs : s ∈ routeSamples route decoded n t) :
    s.intensity = max (3/10) (min ((t / n - 1) * 2) 1) * route.weight ∧
    3/10 * route.weight ≤ s.intensity ∧
    s.intensity ≤ route.weight ∧
    21/100 ≤ s.intensity ∧ s.intensity ≤ 1 := by
  obtain ⟨hw1, hw2⟩ := routeWeight_bounds route hr
  have hsi : s.intensity = max (3/10) (min ((t / n - 1) * 2) 1) * route.weight := by
    simp only [routeSamples, List.mem_map] at hs
    obtain ⟨ip, _, rfl⟩ := hs
    rfl
  have h3 : (3:ℚ)/10 ≤ max (3/10) (min ((t/n - 1) * 2) 1) := le_max_left _ _
  have h1 : max ((3:ℚ)/10) (min ((t/n - 1) * 2) 1) ≤ 1 :=
    max_le (by norm_num) (min_le_right _ _)
  rw [hsi]
  refine ⟨rfl, ?_, ?_, ?_, ?_⟩ <;> nlinarith

/-- Witness for C8 (amended) at the Ajman-UAQ sample. -/
theorem C8_intensity_witness :
    21/100 ≤ ajmanSample.intensity ∧ ajmanSample.intensity ≤ ajmanUaqRoute.weight :=
  have hmem : ajmanSample ∈ routeSamples ajmanUaqRoute [((25.5 : ℚ), (55.5 : ℚ))] 600 600 := by
    rw [routeSamplesAjman_eq]
    exact List.mem_singleton.mpr rfl
  have hroute : ajmanUaqRoute ∈ UAE_MAJOR_ROUTES := by
    simp only [UAE_MAJOR_ROUTES, ajmanUaqRoute]
    norm_num
  ⟨(C8_intensity ajmanUaqRoute hroute _ 600 600 ajmanSample hmem).2.2.2.1,
    (C8_intensity ajmanUaqRoute hroute _ 600 600 ajmanSample hmem).2.2.1⟩

/-- Outcome of the upstream directions request for one route: a failure
(non-OK status or thrown error — the loop logs and continues), or a success
carrying the decoded polyline and the two durations. -/
inductive RouteOutcome where
  | failed
  | fetched (decoded : List (ℚ × ℚ)) (normalDuration trafficDuration : ℚ)
  deriving DecidableEq

/-- `fetchGoogleTrafficData` (part_000 lines 65-141): throws only when the
API key is missing; otherwise it accumulates the samples of the successful
routes, skipping failed ones, and returns the accumulated list — which is
empty, not an error, when every route failed. -/
def fetchGoogleTrafficData (apiKeyPresent : Bool)
    (outcomes : List (TrafficRoute × RouteOutcome)) :
    Except String (List TrafficSample) :=
  if apiKeyPresent = false then
    Except.error "GOOGLE_MAPS_API_KEY not found in environment variables"
  else
    Except.ok (outcomes.flatMap (fun ro =>
      match ro.2 with
      | RouteOutcome.failed => []
      | RouteOutcome.fetched decoded n t => routeSamples ro.1 decoded n t))

def TRAFFIC_CACHE_DURATION : ℚ := 5 * 60 * 1000

/-- The module-level cache slots `trafficDataCache` / `trafficCacheTimestamp`
(part_000 lines 31-32), both initially `null`. -/
structure TrafficCacheState where
  trafficDataCache : Option (List TrafficSample)
  trafficCacheTimestamp : Option ℚ
  deriving DecidableEq

/-- Responses of GET `/api/traffic/roads`: cached data with its age in
seconds, freshly fetched data, or the 500 error payload. -/
inductive TrafficRoadsResponse where
  | cachedOk (data : List TrafficSample) (cacheAge : ℤ)
  | freshOk (data : List TrafficSample)
  | serverError (msg : String)
  deriving DecidableEq

/-- The guard `trafficDataCache && trafficCacheTimestamp && (now -
trafficCacheTimestamp < TRAFFIC_CACHE_DURATION)`: an array is always truthy,
a numeric timestamp is truthy unless 0. -/
def cacheIsFresh (now : ℚ) (st : TrafficCacheState) : Bool :=
  match st.trafficDataCache, st.trafficCacheTimestamp with
  | some _, some ts => decide (ts ≠ 0) && decide (now - ts < TRAFFIC_CACHE_DURATION)
  | _, _ => false

/-- GET `/api/traffic/roads` (part_000 lines 185-223): serve the cache when
fresh; otherwise refresh, overwrite both cache slots and answer with the new
data; a thrown error (missing API key) becomes a 500 response and leaves the
cache untouched. -/
def trafficRoadsHandler (now : ℚ) (apiKeyPresent : Bool)
    (outcomes : List (TrafficRoute × RouteOutcome)) (st : TrafficCacheState) :
    TrafficCacheState × TrafficRoadsResponse :=
  if cacheIsFresh now st then
    (st, TrafficRoadsResponse.cachedOk (st.trafficDataCache.getD [])
      ⌊(now - st.trafficCacheTimestamp.getD 0) / 1000⌋)
  else
    match fetchGoogleTrafficData apiKeyPresent outcomes with
    | Except.error e => (st, TrafficRoadsResponse.serverError e)
    | Except.ok data =>
      (⟨some data, some now⟩, TrafficRoadsResponse.freshOk data)

/-- Every route marked failed. -/
def allFailedOutcomes : List (TrafficRoute × RouteOutcome) :=
  UAE_MAJOR_ROUTES.map (fun r => (r, RouteOutcome.failed))

/-- A cache state holding one sample, refreshed at epoch millisecond
1000000, queried at 1000000 + 301000 (301 s later, past the 5-minute TTL). -/
def staleCacheState : TrafficCacheState :=
  ⟨some [ajmanSample], some 1000000⟩

/-- C9 fails as stated: when every configured route fails on refresh, the
handler answers success with an empty batch — no explicit error — and
replaces the previously cached batch with the empty one instead of
preserving it. -/
theorem C9_counterexample :
    (trafficRoadsHandler 1301000 true allFailedOutcomes staleCacheState).2
      = TrafficRoadsResponse.freshOk [] ∧
    (trafficRoadsHandler 1301000 true allFailedOutcomes staleCacheState).1.trafficDataCache
      = some [] ∧
    staleCacheState.trafficDataCache = some [ajmanSample] := by
  have hstale : cacheIsFresh 1301000 staleCacheState = false := by
    norm_num [cacheIsFresh, staleCacheState, TRAFFIC_CACHE_DURATION]
  have hfetch : fetchGoogleTrafficData true allFailedOutcomes
      = Except.ok [] := by
    simp [fetchGoogleTrafficData, allFailedOutcomes, UAE_MAJOR_ROUTES]
  refine ⟨?_, ?_, rfl⟩ <;> simp [trafficRoadsHandler, hstale, hfetch]

/-- C9 amended: a refresh on which every configured route fails yields an
empty sample list, which the handler reports as success and installs as the
new cached batch, wiping the previous one; an explicit error — which does
preserve the cache — is surfaced only when the API key is missing. -/
theorem C9_total_failure (now : ℚ) (st : TrafficCacheState)
    (outcomes : List (TrafficRoute × RouteOutcome))
    (hall : ∀ o ∈ outcomes, o.2 = RouteOutcome.failed)
    (hstale : cacheIsFresh now st = false) :
    trafficRoadsHandler now true outcomes st
      = (⟨some [], some now⟩, TrafficRoadsResponse.freshOk []) ∧
    ∀ st2 : TrafficCacheState, cacheIsFresh now st2 = false →
      trafficRoadsHandler now false outcomes st2
        = (st2, TrafficRoadsResponse.serverError
            "GOOGLE_MAPS_API_KEY not found in environment variables") := by
  have hfetch : fetchGoogleTrafficData true outcomes = Except.ok [] := by
    simp only [fetchGoogleTrafficData]
    rw [if_neg (by simp)]
    congr 1
    induction outcomes with
    | nil => rfl
    | cons o os ih =>
      have ho := hall o (List.mem_cons_self o os)
      rw [List.flatMap_cons, ho, ih (fun x hx => hall x (List.mem_cons_of_mem o hx))]
      rfl
  constructor
  · simp [trafficRoadsHandler, hstale, hfetch]
  · intro st2 hst2
    simp [trafficRoadsHandler, hst2, fetchGoogleTrafficData]

/-- Witness for C9 (amended) on the concrete stale cache with all routes
failing. -/
theorem C9_total_failure_witness :
    trafficRoadsHandler 1301000 true allFailedOutcomes staleCacheState
      = (⟨some [], some 1301000⟩, TrafficRoadsResponse.freshOk []) :=
  (C9_total_failure 1301000 staleCacheState allFailedOutcomes
    (by intro o ho
        simp only [allFailedOutcomes, List.mem_map] at ho
        obtain ⟨r, _, rfl⟩ := ho
        rfl)
    (by norm_num [cacheIsFresh, staleCacheState, TRAFFIC_CACHE_DURATION])).1

end DxbHeatmap
